import Mathlib

/-!
Verification of the azure-devops-mcp tool server against its specification.

The development shallowly embeds the decision logic of the TypeScript tool
handlers: JavaScript regular-expression matching (used by the pipeline
parameter extractor), JavaScript truthiness on optional strings, the
entity-resolution loops, the best-effort aggregation steps, and the
error-wrapping performed by each tool's catch handler.  Backend calls are
modelled by explicit oracles (functions returning `Except`), and each
handler additionally returns the ordered trace of backend calls it issued.
-/

deriving instance DecidableEq for Except

namespace AzMcp

/-! ## JavaScript string helpers -/

/-- JavaScript `\s` character class restricted to the ASCII whitespace
characters that can occur in the inputs handled here. -/
def jsWhitespace (c : Char) : Bool :=
  c = ' ' || c = '\t' || c = '\n' || c = '\r' || c = '\x0b' || c = '\x0c'

/-- JavaScript `\w` character class. -/
def jsWordChar (c : Char) : Bool :=
  ('a' ≤ c && c ≤ 'z') || ('A' ≤ c && c ≤ 'Z') || ('0' ≤ c && c ≤ '9') || c = '_'

/-- The character class `[^\n]`. -/
def jsNotNewline (c : Char) : Bool :=
  !(c = '\n')

/-- The character class `[\s\S]` (any character). -/
def jsAnyChar (_ : Char) : Bool :=
  true

/-- JavaScript `String.prototype.trim` on a character list. -/
def jsTrimChars (s : List Char) : List Char :=
  ((s.dropWhile jsWhitespace).reverse.dropWhile jsWhitespace).reverse

/-- JavaScript `String.prototype.trim`. -/
def jsTrim (s : String) : String :=
  ⟨jsTrimChars s.data⟩

/-- JavaScript truthiness of a possibly-undefined string: `undefined` and the
empty string are falsy. -/
def jsTruthy : Option String → Bool
  | some s => !(s = "")
  | none => false

/-- JavaScript `a || b` on possibly-undefined strings, as used by the
`args.x || config.defaultX` fallback pattern, normalised so that a falsy
result is `none`. -/
def jsOrElse (a b : Option String) : Option String :=
  if jsTruthy a then a else if jsTruthy b then b else none

/-! ## A JavaScript-semantics regular-expression engine

A backtracking matcher that mirrors the ECMAScript regular-expression
semantics used by the pipeline tools: alternatives and quantifiers are
explored in ECMAScript preference order (greedy quantifiers prefer longer
matches, lazy quantifiers prefer shorter ones, `(?:...)?` prefers to take
the branch), the first successful leaf of that exploration wins, and a
numbered capture group only records text when the group is part of that
first successful leaf.  Recursion is bounded by explicit fuel; all uses in
this file supply fuel far above the exploration depth required. -/

inductive JsRe where
  /-- A literal character sequence. -/
  | lit : List Char → JsRe
  /-- A single-character class. -/
  | cls : (Char → Bool) → JsRe
  /-- Sequencing. -/
  | seq : JsRe → JsRe → JsRe
  /-- Alternation, left branch preferred. -/
  | alt : JsRe → JsRe → JsRe
  /-- Lazy Kleene star `*?`. -/
  | starLazy : JsRe → JsRe
  /-- Greedy Kleene star `*`. -/
  | starGreedy : JsRe → JsRe
  /-- Greedy option `(?:...)?`. -/
  | opt : JsRe → JsRe
  /-- Numbered capture group `(...)`. -/
  | group : Nat → JsRe → JsRe
  /-- Zero-width positive lookahead `(?=...)`. -/
  | look : JsRe → JsRe
  /-- `$` under the `m` flag: end of input or just before a newline. -/
  | eolMulti : JsRe

/-- Greedy `+` as derived syntax. -/
def JsRe.plusGreedy (r : JsRe) : JsRe :=
  .seq r (.starGreedy r)

/-- Sequence a list of regular expressions left to right. -/
def JsRe.seqAll : List JsRe → JsRe
  | [] => .lit []
  | [r] => r
  | r :: rest => .seq r (JsRe.seqAll rest)

/-- Capture-group store: latest assignment first. -/
abbrev JsCaps := List (Nat × List Char)

/-- Read capture group `i`; `none` models an undefined group. -/
def capsGet (caps : JsCaps) (i : Nat) : Option (List Char) :=
  match caps.find? (fun p => p.1 == i) with
  | some p => some p.2
  | none => none

/-- The backtracking matcher in continuation-passing style.  `k` receives the
remaining input and the capture store; the result of the whole call is the
result of the first continuation invocation that succeeds, respecting
ECMAScript preference order. -/
def jsMatch : Nat → JsRe → List Char → JsCaps →
    (List Char → JsCaps → Option (List Char × JsCaps)) → Option (List Char × JsCaps)
  | 0, _, _, _, _ => none
  | Nat.succ fuel, re, s, caps, k =>
    match re with
    | .lit l => if l.isPrefixOf s then k (s.drop l.length) caps else none
    | .cls p =>
      match s with
      | [] => none
      | c :: rest => if p c then k rest caps else none
    | .seq a b => jsMatch fuel a s caps (fun s2 c2 => jsMatch fuel b s2 c2 k)
    | .alt a b =>
      match jsMatch fuel a s caps k with
      | some r => some r
      | none => jsMatch fuel b s caps k
    | .opt a =>
      match jsMatch fuel a s caps k with
      | some r => some r
      | none => k s caps
    | .starLazy a =>
      match k s caps with
      | some r => some r
      | none =>
        jsMatch fuel a s caps (fun s2 c2 =>
          if s2.length < s.length then jsMatch fuel (.starLazy a) s2 c2 k else none)
    | .starGreedy a =>
      match jsMatch fuel a s caps (fun s2 c2 =>
          if s2.length < s.length then jsMatch fuel (.starGreedy a) s2 c2 k else none) with
      | some r => some r
      | none => k s caps
    | .group i a =>
      jsMatch fuel a s caps (fun s2 c2 => k s2 ((i, s.take (s.length - s2.length)) :: c2))
    | .look a =>
      match jsMatch fuel a s caps (fun s2 c2 => some (s2, c2)) with
      | some (_, c2) => k s c2
      | none => none
    | .eolMulti =>
      match s with
      | [] => k s caps
      | c :: _ => if c = '\n' then k s caps else none

/-- Attempt a match anchored at the start of `s`; on success return the
capture store and the input remaining after the match. -/
def jsMatchHere (fuel : Nat) (re : JsRe) (s : List Char) : Option (JsCaps × List Char) :=
  match jsMatch fuel re s [] (fun s2 c2 => some (s2, c2)) with
  | some (rest, caps) => some (caps, rest)
  | none => none

/-- `String.prototype.match` without the `g` flag: try each start position
left to right and return the captures of the first match. -/
def jsFirstMatch (fuel : Nat) (re : JsRe) : List Char → Option JsCaps
  | [] =>
    match jsMatchHere fuel re [] with
    | some (caps, _) => some caps
    | none => none
  | c :: rest =>
    match jsMatchHere fuel re (c :: rest) with
    | some (caps, _) => some caps
    | none => jsFirstMatch fuel re rest

/-- Find the next match scanning left to right; return its captures, the
input remaining after the match, and the length of the matched text. -/
def jsNextMatch (fuel : Nat) (re : JsRe) : List Char → Option (JsCaps × List Char × Nat)
  | [] =>
    match jsMatchHere fuel re [] with
    | some (caps, rest) => some (caps, rest, 0)
    | none => none
  | c :: tl =>
    match jsMatchHere fuel re (c :: tl) with
    | some (caps, rest) => some (caps, rest, (c :: tl).length - rest.length)
    | none => jsNextMatch fuel re tl

/-- `String.prototype.matchAll`: successive non-overlapping matches; a
zero-length match advances the scan position by one, as ECMAScript does.
`rounds` bounds the number of matches collected. -/
def jsMatchAll (fuel : Nat) (re : JsRe) : Nat → List Char → List JsCaps
  | 0, _ => []
  | Nat.succ rounds, s =>
    match jsNextMatch fuel re s with
    | none => []
    | some (caps, rest, mlen) =>
      caps :: jsMatchAll fuel re rounds (if mlen = 0 then rest.drop 1 else rest)

/-! ## The pipeline parameter extractor

Shared verbatim between `src/tools/pipeline/getPipeline.ts` (lines 136-154)
and `src/tools/pipeline/runPipeline.ts` (lines 107-123). -/

/-- The regular expression `/parameters:\s*([\s\S]*?)(?=\n\w|$)/m` that
locates the parameters section of the pipeline YAML text. -/
def reParamsSection : JsRe :=
  .seq (.lit "parameters:".data)
    (.seq (.starGreedy (.cls jsWhitespace))
      (.seq (.group 1 (.starLazy (.cls jsAnyChar)))
        (.look (.alt (.seq (.lit ['\n']) (.cls jsWordChar)) .eolMulti))))

/-- The regular expression
`/\s*-\s*name:\s*([^\n]+)[\s\S]*?(?:type:\s*([^\n]+))?[\s\S]*?(?:default:\s*([^\n]+))?[\s\S]*?(?:displayName:\s*([^\n]+))?/g`
that scans the parameters section for list items. -/
def reParamItem : JsRe :=
  JsRe.seqAll
    [ .starGreedy (.cls jsWhitespace),
      .lit ['-'],
      .starGreedy (.cls jsWhitespace),
      .lit "name:".data,
      .starGreedy (.cls jsWhitespace),
      .group 1 (JsRe.plusGreedy (.cls jsNotNewline)),
      .starLazy (.cls jsAnyChar),
      .opt (JsRe.seqAll [ .lit "type:".data, .starGreedy (.cls jsWhitespace),
        .group 2 (JsRe.plusGreedy (.cls jsNotNewline))]),
      .starLazy (.cls jsAnyChar),
      .opt (JsRe.seqAll [ .lit "default:".data, .starGreedy (.cls jsWhitespace),
        .group 3 (JsRe.plusGreedy (.cls jsNotNewline))]),
      .starLazy (.cls jsAnyChar),
      .opt (JsRe.seqAll [ .lit "displayName:".data, .starGreedy (.cls jsWhitespace),
        .group 4 (JsRe.plusGreedy (.cls jsNotNewline))])]

/-- One extracted pipeline parameter entry. -/
structure ParamEntry where
  name : String
  type : String
  default : String
  displayName : String
deriving DecidableEq, Repr

/-- JavaScript `x?.trim() || d` for a possibly-undefined captured group. -/
def capOrElse (x : Option (List Char)) (d : String) : String :=
  match x with
  | some cs => if jsTrimChars cs = [] then d else ⟨jsTrimChars cs⟩
  | none => d

/-- Fuel comfortably above the exploration depth the matcher needs on `s`. -/
def jsFuel (s : List Char) : Nat :=
  100 * s.length + 1000

/-- Embedding of the parameter extraction performed by both pipeline tools:
match the parameters section with `reParamsSection`, then scan it with
`reParamItem`, building one entry per item where a missing `type` defaults
to `"string"`, a missing `default` to `""`, and a missing `displayName` to
the item's trimmed name (each via JavaScript `||` on the trimmed capture). -/
def extractYamlParameters (yamlContent : String) : List ParamEntry :=
  let s := yamlContent.data
  match jsFirstMatch (jsFuel s) reParamsSection s with
  | none => []
  | some caps =>
    match capsGet caps 1 with
    | none => []
    | some sect =>
      if sect = [] then []
      else
        (jsMatchAll (jsFuel sect) reParamItem (sect.length + 1) sect).map (fun m =>
          { name := capOrElse (capsGet m 1) ""
            type := capOrElse (capsGet m 2) "string"
            default := capOrElse (capsGet m 3) ""
            displayName := capOrElse (capsGet m 4) (capOrElse (capsGet m 1) "") })

/-! ## run_pipeline required-parameter validation

Embedding of `src/tools/pipeline/runPipeline.ts` lines 135-154. -/

/-- JavaScript falsiness of a string value: only the empty string is falsy. -/
def jsFalsyString (s : String) : Bool :=
  s = ""

/-- `args.parameters && args.parameters[param.name] !== undefined`: the
supplied parameters are a possibly-absent association list. -/
def isProvidedParam (params? : Option (List (String × String))) (nm : String) : Bool :=
  match params? with
  | some ps => ps.any (fun q => q.1 == nm)
  | none => false

/-- The source comment reads "A parameter is considered required if it has no
default value"; the code computes `!param.default && param.default !== ''`. -/
def isRequiredParam (p : ParamEntry) : Bool :=
  jsFalsyString p.default && !(p.default == "")

/-- The parameters reported missing by `run_pipeline`'s validation. -/
def missingRequiredParams (yamlParameters : List ParamEntry)
    (params? : Option (List (String × String))) : List ParamEntry :=
  yamlParameters.filter (fun p => isRequiredParam p && !(isProvidedParam params? p.name))

/-- Whether `run_pipeline` rejects the invocation with the
"Missing required parameters" error instead of running the pipeline. -/
def runPipelineRejects (yamlParameters : List ParamEntry)
    (params? : Option (List (String × String))) : Bool :=
  yamlParameters.length > 0 && (missingRequiredParams yamlParameters params?).length > 0

/-! ## Git data model -/

/-- A repository record as returned by the backend. -/
structure GitRepository where
  id : String
  name : Option String
  projectId : Option String
  projectName : Option String
  defaultBranch : Option String
  size : Option Nat
  remoteUrl : Option String
  webUrl : Option String
  isDisabled : Option Bool
  isInMaintenance : Option Bool
deriving DecidableEq, Repr

/-- A repository record carrying only an id and a display name, as used in
the concrete scenarios below. -/
def mkRepo (id : String) (name : String) : GitRepository :=
  { id := id, name := some name, projectId := none, projectName := none,
    defaultBranch := none, size := none, remoteUrl := none, webUrl := none,
    isDisabled := none, isInMaintenance := none }

/-- The pull-request fields the resolution, aggregation and formatting logic
reads.  `repositoryId`/`repositoryName` model `pullRequest.repository`;
dates are kept as opaque strings. -/
structure GitPullRequest where
  pullRequestId : Nat
  title : Option String
  status : Option Nat
  createdByDisplayName : Option String
  creationDate : Option String
  closedDate : Option String
  sourceRefName : Option String
  targetRefName : Option String
  description : Option String
  repositoryId : Option String
  repositoryName : Option String
  isDraft : Option Bool
  mergeStatus : Option Nat
  autoCompleteSetByDisplayName : Option String
  lastMergeCommitId : Option String
deriving DecidableEq, Repr

/-- A pull request carrying only an id and a repository reference, as used
in the concrete scenarios below. -/
def mkPr (pullRequestId : Nat) (repoId repoName : String) : GitPullRequest :=
  { pullRequestId := pullRequestId, title := none, status := none,
    createdByDisplayName := none, creationDate := none, closedDate := none,
    sourceRefName := none, targetRefName := none, description := none,
    repositoryId := some repoId, repositoryName := some repoName,
    isDraft := none, mergeStatus := none, autoCompleteSetByDisplayName := none,
    lastMergeCommitId := none }

/-- A backend lookup oracle: `lookup repoId` is the outcome of
`gitApi.getPullRequest(repoId, pullRequestId, project, ...)`; `.ok none`
models the promise resolving to a null/undefined pull request and `.error`
models a rejected promise. -/
abbrev PrLookup := String → Except String (Option GitPullRequest)

/-! ## get_pull_request cross-repository resolution

Embedding of `src/tools/repository/getPullRequest.ts` lines 64-120. -/

/-- The backend calls issued by the git-based tools, in issue order. -/
inductive GitCall where
  | getGitApi
  | getPullRequestById (repositoryId : String) (pullRequestId : Nat)
  | listProjectRepositories (project : String)
  | getThreadsFor (repositoryId : String) (pullRequestId : Nat)
  | getRepositoryById (repositoryId : String) (project : String)
  | createPullRequestIn (repositoryId : String) (project : String)
  | getRefsOf (repositoryId : String)
deriving DecidableEq, Repr

/-- The fallback loop (lines 87-113): walk the listed repositories in order,
skip the default repository (already tried), attempt the direct lookup in
each, keep the first result whose `pullRequestId` matches, and swallow
per-repository lookup failures.  The second component is the trace of
lookups issued. -/
def searchOtherRepositories (defaultRepositoryId : String) (pullRequestId : Nat)
    (lookup : PrLookup) : List GitRepository → Option GitPullRequest × List GitCall
  | [] => (none, [])
  | repo :: rest =>
    if repo.id = defaultRepositoryId then
      searchOtherRepositories defaultRepositoryId pullRequestId lookup rest
    else
      let call := GitCall.getPullRequestById repo.id pullRequestId
      match lookup repo.id with
      | .ok (some pr) =>
        if pr.pullRequestId = pullRequestId then (some pr, [call])
        else
          let next := searchOtherRepositories defaultRepositoryId pullRequestId lookup rest
          (next.1, call :: next.2)
      | .ok none =>
        let next := searchOtherRepositories defaultRepositoryId pullRequestId lookup rest
        (next.1, call :: next.2)
      | .error _ =>
        let next := searchOtherRepositories defaultRepositoryId pullRequestId lookup rest
        (next.1, call :: next.2)

/-- Full resolution (lines 64-120): try the configured default repository
first; only if that lookup rejects, list the project's repositories
(`listRepositories` is the outcome of `gitApi.getRepositories(project)`,
whose failure propagates) and run the fallback loop; exhaustion of the loop
throws the "not found in project" error. -/
def resolvePullRequest (defaultRepositoryId : String) (pullRequestId : Nat)
    (lookup : PrLookup) (listRepositories : Except String (List GitRepository))
    (project : String) : Except String (Option GitPullRequest) × List GitCall :=
  let firstCall := GitCall.getPullRequestById defaultRepositoryId pullRequestId
  match lookup defaultRepositoryId with
  | .ok pr? => (.ok pr?, [firstCall])
  | .error _ =>
    let listCall := GitCall.listProjectRepositories project
    match listRepositories with
    | .error e => (.error e, [firstCall, listCall])
    | .ok repositories =>
      let scan := searchOtherRepositories defaultRepositoryId pullRequestId lookup repositories
      match scan.1 with
      | some pr => (.ok (some pr), firstCall :: listCall :: scan.2)
      | none =>
        (.error ("Pull request #" ++ toString pullRequestId ++ " not found in project " ++ project),
          firstCall :: listCall :: scan.2)

/-- Worded from the spec sentence behind C1, for comparison with
`resolvePullRequest`: "resolution scans repositories in listing order and
returns the first repository in which a matching pull request is found",
swallowing per-repository lookup failures. -/
def specScanListingOrder (pullRequestId : Nat) (lookup : PrLookup) :
    List GitRepository → Option GitPullRequest
  | [] => none
  | repo :: rest =>
    match lookup repo.id with
    | .ok (some pr) =>
      if pr.pullRequestId = pullRequestId then some pr
      else specScanListingOrder pullRequestId lookup rest
    | .ok none => specScanListingOrder pullRequestId lookup rest
    | .error _ => specScanListingOrder pullRequestId lookup rest

/-! ## More JavaScript helpers used by the formatters -/

/-- How a possibly-undefined string renders inside a template literal. -/
def jsShowStrOpt : Option String → String
  | some s => s
  | none => "undefined"

/-- How a possibly-undefined number renders inside a template literal. -/
def jsShowNatOpt : Option Nat → String
  | some n => toString n
  | none => "undefined"

/-- JavaScript truthiness of a possibly-undefined number: `undefined` and
`0` are falsy. -/
def jsNatTruthy : Option Nat → Bool
  | some n => !(n = 0)
  | none => false

/-- `if (!x) throw` on a possibly-undefined string: keep only truthy values. -/
def jsRequire (x : Option String) : Option String :=
  if jsTruthy x then x else none

/-- `String.prototype.replace` with a plain-string pattern: replace the first
occurrence only. -/
def replaceFirstChars (pat rep : List Char) : List Char → List Char
  | [] => []
  | c :: rest =>
    if pat.isPrefixOf (c :: rest) then rep ++ (c :: rest).drop pat.length
    else c :: replaceFirstChars pat rep rest

/-- `s.replace(pat, rep)` for plain-string patterns. -/
def jsReplaceFirst (s pat rep : String) : String :=
  ⟨replaceFirstChars pat.data rep.data s.data⟩

/-! ## Tool responses and catch-handler error texts

Every tool handler catches its own errors and answers with a plain text
response; the embedding distinguishes the branch that produced the answer.
Markdown rendering of successful composites is pure formatting (out of the
specified core) and is abstracted to the composite payload it renders;
failure texts are kept verbatim. -/

/-- Outcome of one tool invocation: a successful composite payload, a plain
informational text (the "not found." style responses), or the text response
produced by the tool's catch handler. -/
inductive ToolOutcome (α : Type) where
  | success (payload : α)
  | info (text : String)
  | failure (text : String)
deriving DecidableEq, Repr

/-- Whether the outcome came from the catch handler. -/
def ToolOutcome.isFailure : ToolOutcome α → Bool
  | .failure _ => true
  | _ => false

/-- Catch text of `get_pull_request` (src/tools/repository/getPullRequest.ts:306). -/
def getPullRequestErrorText (m : String) : String :=
  "Error getting pull request: " ++ m

/-- Catch text of `get_pipeline` (src/tools/pipeline/getPipeline.ts:205). -/
def getPipelineErrorText (m : String) : String :=
  "Error getting pipeline: " ++ m

/-- Catch text of `run_pipeline` (src/tools/pipeline/runPipeline.ts:236). -/
def runPipelineErrorText (m : String) : String :=
  "Error running pipeline: " ++ m

/-- Catch text of `create_pull_request` (src/tools/repository/createPullRequest.ts:209). -/
def createPullRequestErrorText (m : String) : String :=
  "Error creating pull request: " ++ m

/-- Catch text of `get_work_item` (src/tools/workItem/getWorkItem.ts:227). -/
def getWorkItemErrorText (m : String) : String :=
  "Error getting work item: " ++ m

/-- Catch text of `create_work_item` (src/tools/workItem/getWorkItem.ts:531). -/
def createWorkItemErrorText (m : String) : String :=
  "Error creating work item: " ++ m

/-- Catch text of `get_repository` (GetRepositoryTool, catch handler). -/
def getRepositoryErrorText (m : String) : String :=
  "Error retrieving repository: " ++ m

/-- Catch text of `get_pull_request_diff` (GetPullRequestDiffTool, catch handler). -/
def getPullRequestDiffErrorText (m : String) : String :=
  "Error getting pull request diff: " ++ m

/-- Catch text of `get_pull_requests` (src/tools/repository/getPullRequests.ts:175). -/
def getPullRequestsErrorText (m : String) : String :=
  "Error getting pull requests: " ++ m

/-- Catch text of `search_repository_code` (src/tools/repository/searchRepositoryCode.ts:268). -/
def searchCodeErrorText (m : String) : String :=
  "Error searching code: " ++ m

/-- Message of the error rethrown by `edit_wiki_page`'s catch handler
(src/tools/wiki/editWikiPage.ts:87); this tool does not answer with a text
payload on error. -/
def editWikiPageThrownMessage (m : String) : String :=
  "Failed to edit wiki page: " ++ m

/-- Message of the error rethrown by `create_wiki`'s catch handler. -/
def createWikiThrownMessage (m : String) : String :=
  "Failed to create wiki: " ++ m

/-! ## get_pull_request aggregation and handler

Embedding of `src/tools/repository/getPullRequest.ts` lines 38-313. -/

/-- A pull-request comment thread; its content is only carried through. -/
structure GitCommentThread where
  threadId : Nat
deriving DecidableEq, Repr

/-- The formatted pull request built at lines 156-174. -/
structure FormattedPullRequest where
  id : Nat
  title : Option String
  status : Option Nat
  createdBy : Option String
  creationDate : Option String
  closedDate : Option String
  sourceRefName : Option String
  targetRefName : Option String
  sourceBranch : Option String
  targetBranch : Option String
  description : Option String
  repository : Option String
  isDraft : Option Bool
  mergeStatus : Option Nat
  autoCompleteSetBy : Option String
  lastMergeCommit : Option String
  url : String
deriving DecidableEq, Repr

/-- Lines 156-174: project the resolved pull request into the formatted
record; every field is a function of the primary entity alone. -/
def formatPullRequest (serverUrl project : String) (pr : GitPullRequest) :
    FormattedPullRequest :=
  { id := pr.pullRequestId
    title := pr.title
    status := pr.status
    createdBy := pr.createdByDisplayName
    creationDate := pr.creationDate
    closedDate := pr.closedDate
    sourceRefName := pr.sourceRefName
    targetRefName := pr.targetRefName
    sourceBranch := pr.sourceRefName.map (fun s => jsReplaceFirst s "refs/heads/" "")
    targetBranch := pr.targetRefName.map (fun s => jsReplaceFirst s "refs/heads/" "")
    description := pr.description
    repository := pr.repositoryName
    isDraft := pr.isDraft
    mergeStatus := pr.mergeStatus
    autoCompleteSetBy := pr.autoCompleteSetByDisplayName
    lastMergeCommit := pr.lastMergeCommitId
    url := serverUrl ++ "/" ++ project ++ "/_git/" ++ jsShowStrOpt pr.repositoryName ++
      "/pullrequest/" ++ toString pr.pullRequestId }

/-- Lines 140-153: the comment-thread fetch, attempted only when the pull
request carries a repository id; a rejected fetch leaves the thread list
empty and processing continues. -/
def pullRequestThreads (pr : GitPullRequest)
    (getThreads : String → Nat → Except String (List GitCommentThread)) :
    List GitCommentThread :=
  match pr.repositoryId with
  | some rid =>
    match getThreads rid pr.pullRequestId with
    | .ok threads => threads
    | .error _ => []
  | none => []

/-- Server configuration handed to every tool. -/
structure AzConfig where
  defaultProject : Option String
  defaultRepository : Option String
deriving DecidableEq, Repr

/-- Arguments of the `get_pull_request` tool; its schema exposes no
repository parameter. -/
structure GetPullRequestArgs where
  pullRequestId : Nat
  project : Option String
deriving DecidableEq, Repr

/-- A git ref as returned by `gitApi.getRefs`. -/
structure GitRef where
  name : Option String
  objectId : Option String
  creator : Option String
  url : Option String
deriving DecidableEq, Repr

/-- The pull-request creation payload built at createPullRequest.ts:124-130. -/
structure GitPullRequestCreate where
  sourceRefName : String
  targetRefName : String
  title : String
  description : String
  isDraft : Bool
deriving DecidableEq, Repr

/-- The record resolved by `gitApi.createPullRequest`. -/
structure CreatedPullRequest where
  pullRequestId : Option Nat
  title : Option String
  isDraft : Option Bool
deriving DecidableEq, Repr

/-- The backend oracles consumed by the git-based tools. -/
structure GitBackend where
  getPullRequest : String → Nat → Except String (Option GitPullRequest)
  getRepositories : String → Except String (List GitRepository)
  getThreads : String → Nat → Except String (List GitCommentThread)
  getRepository : String → String → Except String GitRepository
  getRefs : String → Except String (List GitRef)
  createPullRequest : GitPullRequestCreate → String → String →
    Except String (Option CreatedPullRequest)

/-- The `get_pull_request` handler (lines 38-313): connection check, project
fallback, default-repository requirement, cross-repository resolution,
best-effort thread fetch, formatting.  Returns the outcome together with
the ordered trace of backend calls issued. -/
def getPullRequestHandler (cfg : AzConfig) (args : GetPullRequestArgs)
    (conn : Option String) (be : GitBackend) :
    ToolOutcome (FormattedPullRequest × List GitCommentThread) × List GitCall :=
  match conn with
  | none => (.failure (getPullRequestErrorText "No connection to Azure DevOps"), [])
  | some serverUrl =>
    match jsOrElse args.project cfg.defaultProject with
    | none =>
      (.failure (getPullRequestErrorText "No project specified and no default project configured"), [])
    | some project =>
      match jsRequire cfg.defaultRepository with
      | none =>
        (.failure (getPullRequestErrorText
          "No default repository configured. Please set AZURE_DEVOPS_DEFAULT_REPOSITORY in your .env file"), [])
      | some repositoryId =>
        let res := resolvePullRequest repositoryId args.pullRequestId
          (fun rid => be.getPullRequest rid args.pullRequestId)
          (be.getRepositories project) project
        let baseCalls := GitCall.getGitApi :: res.2
        match res.1 with
        | .error e => (.failure (getPullRequestErrorText e), baseCalls)
        | .ok none =>
          (.info ("Pull request #" ++ toString args.pullRequestId ++ " not found."), baseCalls)
        | .ok (some pullRequest) =>
          let threads := pullRequestThreads pullRequest be.getThreads
          let threadCalls :=
            match pullRequest.repositoryId with
            | some rid => [GitCall.getThreadsFor rid pullRequest.pullRequestId]
            | none => []
          (.success (formatPullRequest serverUrl project pullRequest, threads),
            baseCalls ++ threadCalls)

/-! ## create_pull_request handler

Embedding of `src/tools/repository/createPullRequest.ts` lines 69-213.  The
tool's declared parameter schema (lines 29-68) has no repository parameter,
which is why `CreatePullRequestArgs` below carries none: the target
repository always comes from the configuration. -/

/-- Arguments of the `create_pull_request` tool, mirroring its schema. -/
structure CreatePullRequestArgs where
  sourceRefName : String
  targetRefName : String
  title : String
  description : Option String
  project : Option String
  isDraft : Option Bool
  reviewers : Option (List String)
  workItemIds : Option (List Nat)
deriving DecidableEq, Repr

/-- Lines 115-121: prefix a branch name with `refs/heads/` unless present. -/
def ensureRefsHeads (ref : String) : String :=
  if ref.startsWith "refs/heads/" then ref else "refs/heads/" ++ ref

/-- The successful response data of `create_pull_request` (lines 186-202). -/
structure CreatedPullRequestReport where
  pullRequestId : Nat
  repositoryId : String
  title : Option String
  sourceBranch : String
  targetBranch : String
  isDraft : Option Bool
  url : String
deriving DecidableEq, Repr

/-- The message thrown at lines 100-103 when the configured repository does
not verify. -/
def repoVerifyNotFoundMsg (repositoryId project : String) : String :=
  "Repository '" ++ repositoryId ++ "' not found in project '" ++ project ++
    "'. Please check your AZURE_DEVOPS_DEFAULT_REPOSITORY setting in the .env file."

/-- The wrapping applied by the verification catch at lines 107-112. -/
def repoVerifyErrorMsg (repositoryId project m : String) : String :=
  "Error verifying repository '" ++ repositoryId ++ "' in project '" ++ project ++ "': " ++ m

/-- The `create_pull_request` handler.  `be.getRepository` models the
verification lookup; its `.error` is wrapped by the inner catch, and a
verified repository with a falsy id triggers the inner not-found throw,
which that same catch also wraps. -/
def createPullRequestHandler (cfg : AzConfig) (args : CreatePullRequestArgs)
    (conn : Option String) (be : GitBackend) :
    ToolOutcome CreatedPullRequestReport × List GitCall :=
  match conn with
  | none => (.failure (createPullRequestErrorText "No connection to Azure DevOps"), [])
  | some serverUrl =>
    match jsOrElse args.project cfg.defaultProject with
    | none =>
      (.failure (createPullRequestErrorText "No project specified and no default project configured"), [])
    | some project =>
      match jsRequire cfg.defaultRepository with
      | none =>
        (.failure (createPullRequestErrorText
          "No repository configured. Please set AZURE_DEVOPS_DEFAULT_REPOSITORY in your .env file"), [])
      | some repositoryId =>
        let verifyCalls := [GitCall.getGitApi, GitCall.getRepositoryById repositoryId project]
        match be.getRepository repositoryId project with
        | .error e =>
          (.failure (createPullRequestErrorText (repoVerifyErrorMsg repositoryId project e)),
            verifyCalls)
        | .ok repository =>
          if repository.id = "" then
            (.failure (createPullRequestErrorText
              (repoVerifyErrorMsg repositoryId project (repoVerifyNotFoundMsg repositoryId project))),
              verifyCalls)
          else
            let sourceRefName := ensureRefsHeads args.sourceRefName
            let targetRefName := ensureRefsHeads args.targetRefName
            let pullRequestToCreate : GitPullRequestCreate :=
              { sourceRefName := sourceRefName
                targetRefName := targetRefName
                title := args.title
                description := args.description.getD ""
                isDraft := args.isDraft.getD false }
            let allCalls := verifyCalls ++ [GitCall.createPullRequestIn repositoryId project]
            match be.createPullRequest pullRequestToCreate repositoryId project with
            | .error e => (.failure (createPullRequestErrorText e), allCalls)
            | .ok none =>
              (.failure (createPullRequestErrorText "Failed to create pull request"), allCalls)
            | .ok (some createdPR) =>
              if jsNatTruthy createdPR.pullRequestId then
                (.success
                  { pullRequestId := createdPR.pullRequestId.getD 0
                    repositoryId := repositoryId
                    title := createdPR.title
                    sourceBranch := jsReplaceFirst sourceRefName "refs/heads/" ""
                    targetBranch := jsReplaceFirst targetRefName "refs/heads/" ""
                    isDraft := createdPR.isDraft
                    url := serverUrl ++ "/" ++ project ++ "/_git/" ++ repositoryId ++
                      "/pullrequest/" ++ jsShowNatOpt createdPR.pullRequestId },
                  allCalls)
              else
                (.failure (createPullRequestErrorText "Failed to create pull request"), allCalls)

/-! ## get_repository resolution and handler

Embedding of the GetRepositoryTool handler (unnamed source, lines 38-139).
`be.getRepository` models the direct primary-key lookup, which the real
client rejects on not-found or invalid-format identifiers. -/

/-- `String.prototype.toLowerCase` restricted to its ASCII action, on one
character. -/
def jsToLowerChar (c : Char) : Char :=
  if 'A' ≤ c && c ≤ 'Z' then Char.ofNat (c.toNat + 32) else c

/-- `String.prototype.toLowerCase` restricted to its ASCII action. -/
def jsToLower (s : String) : String :=
  ⟨s.data.map jsToLowerChar⟩

/-- Line 75-78: `repo.name?.toLowerCase() === repositoryId.toLowerCase()`. -/
def repoNameMatches (repositoryId : String) (repo : GitRepository) : Bool :=
  match repo.name with
  | some n => jsToLower n == jsToLower repositoryId
  | none => false

/-- The not-found message thrown at lines 80-84 (project is known truthy at
that point, but the template's conditional is kept). -/
def repositoryNotFoundMsg (repositoryId project : String) : String :=
  "Repository '" ++ repositoryId ++ "' not found" ++
    (if project = "" then "" else " in project '" ++ project ++ "'")

/-- Lines 64-85: direct lookup first; on its failure, list the candidates
and take the first case-insensitive display-name match; otherwise throw the
not-found message.  A failure of the candidate listing itself propagates. -/
def resolveRepository (repositoryId project : String)
    (directLookup : Except String GitRepository)
    (listing : Except String (List GitRepository)) : Except String GitRepository :=
  match directLookup with
  | .ok repository => .ok repository
  | .error _ =>
    match listing with
    | .error e => .error e
    | .ok repositories =>
      match repositories.find? (repoNameMatches repositoryId) with
      | some repository => .ok repository
      | none => .error (repositoryNotFoundMsg repositoryId project)

/-- Arguments of the `get_repository` tool. -/
structure GetRepositoryArgs where
  repositoryId : Option String
  project : Option String
deriving DecidableEq, Repr

/-- A branch row of the formatted repository (lines 105-112). -/
structure RepositoryBranch where
  name : Option String
  objectId : Option String
  creator : Option String
  url : Option String
deriving DecidableEq, Repr

/-- The formatted repository details (lines 92-113). -/
structure FormattedRepository where
  id : String
  name : Option String
  projectId : Option String
  projectName : Option String
  defaultBranch : Option String
  size : Option Nat
  remoteUrl : Option String
  webUrl : Option String
  isDisabled : Option Bool
  isInMaintenance : Option Bool
  branches : List RepositoryBranch
deriving DecidableEq, Repr

/-- Lines 92-113: format the repository, keeping only refs under
`refs/heads/` and stripping that prefix from branch names. -/
def formatRepository (repository : GitRepository) (refs : List GitRef) :
    FormattedRepository :=
  { id := repository.id
    name := repository.name
    projectId := repository.projectId
    projectName := repository.projectName
    defaultBranch := repository.defaultBranch
    size := repository.size
    remoteUrl := repository.remoteUrl
    webUrl := repository.webUrl
    isDisabled := repository.isDisabled
    isInMaintenance := repository.isInMaintenance
    branches :=
      (refs.filter (fun ref =>
        match ref.name with
        | some n => n.startsWith "refs/heads/"
        | none => false)).map (fun ref =>
          { name := ref.name.map (fun n => jsReplaceFirst n "refs/heads/" "")
            objectId := ref.objectId
            creator := ref.creator
            url := ref.url }) }

/-- The `get_repository` handler (lines 38-139); every thrown error is
answered as a text response by the catch handler at lines 127-138, so the
handler is a total function into `ToolOutcome`. -/
def getRepositoryHandler (cfg : AzConfig) (args : GetRepositoryArgs)
    (conn : Option String) (be : GitBackend) :
    ToolOutcome FormattedRepository × List GitCall :=
  match conn with
  | none => (.failure (getRepositoryErrorText "No connection to Azure DevOps"), [])
  | some _ =>
    match jsOrElse args.project cfg.defaultProject with
    | none =>
      (.failure (getRepositoryErrorText "No project specified and no default project configured"), [])
    | some project =>
      match jsOrElse args.repositoryId cfg.defaultRepository with
      | none =>
        (.failure (getRepositoryErrorText
          "No repository specified and no default repository configured"), [])
      | some repositoryId =>
        let directCall := GitCall.getRepositoryById repositoryId project
        let direct := be.getRepository repositoryId project
        let resolved := resolveRepository repositoryId project direct (be.getRepositories project)
        let resolveCalls :=
          match direct with
          | .ok _ => [GitCall.getGitApi, directCall]
          | .error _ => [GitCall.getGitApi, directCall, GitCall.listProjectRepositories project]
        match resolved with
        | .error e => (.failure (getRepositoryErrorText e), resolveCalls)
        | .ok repository =>
          let refsCalls := resolveCalls ++ [GitCall.getRefsOf repository.id]
          match be.getRefs repository.id with
          | .error e => (.failure (getRepositoryErrorText e), refsCalls)
          | .ok refs => (.success (formatRepository repository refs), refsCalls)

/-! ## get_pipeline formatting and best-effort run listing

Embedding of `src/tools/pipeline/getPipeline.ts` lines 41-107. -/

/-- The pipeline fields read by the formatter; `configurationType` models
`pipeline.configuration?.type` rendered as a string, `none` meaning the
configuration object is absent. -/
structure Pipeline where
  id : Nat
  name : String
  revision : Option Nat
  folder : Option String
  url : Option String
  configurationType : Option String
deriving DecidableEq, Repr

/-- A pipeline run row as read by the run listing. -/
structure PipelineRun where
  name : Option String
  state : Option Nat
  result : Option Nat
  createdDate : Option String
deriving DecidableEq, Repr

/-- Lines 75-82: the formatted pipeline; every field is a function of the
primary entity alone. -/
structure FormattedPipeline where
  id : Nat
  name : String
  revision : Option Nat
  folder : Option String
  url : Option String
  configuration : String
deriving DecidableEq, Repr

/-- Lines 75-82. -/
def formatPipeline (p : Pipeline) : FormattedPipeline :=
  { id := p.id
    name := p.name
    revision := p.revision
    folder := p.folder
    url := p.url
    configuration :=
      match p.configurationType with
      | some t => t
      | none => "Unknown" }

/-- Lines 88-107: the best-effort run listing; on success the five most
recent runs are shown, a rejected listing yields no runs section and
processing continues. -/
def recentRunsShown (listRuns : Except String (List PipelineRun)) : List PipelineRun :=
  match listRuns with
  | .ok runs => if runs.length > 0 then runs.take 5 else []
  | .error _ => []

/-- The composite record assembled by `get_pipeline` before optional YAML
augmentation: the formatted primary entity and the runs section. -/
def assembleGetPipeline (p : Pipeline) (listRuns : Except String (List PipelineRun)) :
    FormattedPipeline × List PipelineRun :=
  (formatPipeline p, recentRunsShown listRuns)

/-! ## get_pull_request_diff change grouping

Embedding of the GetPullRequestDiffTool handler (unnamed source, lines
120-151). -/

/-- `VersionControlChangeType.Add`. -/
def changeTypeAdd : Nat := 1

/-- `VersionControlChangeType.Edit`. -/
def changeTypeEdit : Nat := 2

/-- `VersionControlChangeType.Rename`. -/
def changeTypeRename : Nat := 8

/-- `VersionControlChangeType.Delete`. -/
def changeTypeDelete : Nat := 16

/-- One change entry of a pull-request iteration. -/
structure ChangeEntry where
  path : Option String
  changeType : Option Nat
deriving DecidableEq, Repr

/-- Line 121. -/
def additionsOf (entries : List ChangeEntry) : List ChangeEntry :=
  entries.filter (fun change => change.changeType == some changeTypeAdd)

/-- Line 122. -/
def editsOf (entries : List ChangeEntry) : List ChangeEntry :=
  entries.filter (fun change => change.changeType == some changeTypeEdit)

/-- Line 123. -/
def deletesOf (entries : List ChangeEntry) : List ChangeEntry :=
  entries.filter (fun change => change.changeType == some changeTypeDelete)

/-- Line 124. -/
def renamesOf (entries : List ChangeEntry) : List ChangeEntry :=
  entries.filter (fun change => change.changeType == some changeTypeRename)

/-- Lines 127-131: the group sizes reported by the summary, in the order
Added, Modified, Deleted, Renamed. -/
def diffSummaryCounts (entries : List ChangeEntry) : Nat × Nat × Nat × Nat :=
  ((additionsOf entries).length, (editsOf entries).length,
    (deletesOf entries).length, (renamesOf entries).length)

/-! ## create_work_item handler

Embedding of the CreateWorkItemTool handler
(`src/tools/workItem/getWorkItem.ts` lines 303-536).  Every backend call in
this handler is raced against a `setTimeout` rejection (`Promise.race`),
so each emitted call records its timeout bound; a timeout materialises as a
rejection distinct from an ordinary error. -/

/-- A failed backend call: an ordinary rejection or a timeout of the
`Promise.race` wrapper; both carry the `Error` message observed. -/
inductive CallFailure where
  | rejected (msg : String)
  | timedOut (msg : String)
deriving DecidableEq, Repr

/-- `error.message` as read by the catch handlers. -/
def CallFailure.message : CallFailure → String
  | .rejected m => m
  | .timedOut m => m

/-- The work-item fields read by this tool. -/
structure WorkItemFieldsRec where
  title : Option String
  state : Option String
  workItemType : Option String
  assignedToDisplayName : Option String
deriving DecidableEq, Repr

/-- A work item; `fields` is possibly absent (`workItem.fields || {}`). -/
structure WorkItem where
  id : Option Nat
  url : Option String
  fields : Option WorkItemFieldsRec
deriving DecidableEq, Repr

/-- Arguments of the `create_work_item` tool, mirroring its schema. -/
structure CreateWorkItemArgs where
  project : Option String
  title : String
  workItemType : String
  description : Option String
  assignedTo : Option String
  parentId : Option Nat
  linkType : Option String
  relatedWorkItemId : Option Nat
  relatedWorkItemLinkType : Option String
deriving DecidableEq, Repr

/-- The backend calls issued by `create_work_item`, each with the timeout
bound (milliseconds) of its `Promise.race` wrapper; `none` would mean an
unraced call, which this handler never issues. -/
inductive WitCall where
  | getApiCall (timeoutMs : Option Nat)
  | createCall (timeoutMs : Option Nat)
  | getItemCall (id : Nat) (timeoutMs : Option Nat)
  | updateItemCall (id : Nat) (timeoutMs : Option Nat)
deriving DecidableEq, Repr

/-- The timeout bound recorded on a call. -/
def WitCall.bound : WitCall → Option Nat
  | .getApiCall t => t
  | .createCall t => t
  | .getItemCall _ t => t
  | .updateItemCall _ t => t

/-- The backend oracles consumed by `create_work_item`. -/
structure WitBackend where
  getWorkItemTrackingApi : Except CallFailure Unit
  createWorkItem : Except CallFailure (Option WorkItem)
  getWorkItem : Nat → Except CallFailure (Option WorkItem)
  updateWorkItem : Nat → Except CallFailure (Option WorkItem)

/-- One linking block (lines 375-423 for the parent, lines 427-475 for the
related item): when a truthy target id is supplied, fetch the target with a
15000 ms bound; if it resolves, add the link to the created item (truthy id
required) with a 15000 ms bound.  The whole block sits in a `try`/`catch`
that swallows any rejection or timeout, so the block only ever contributes
the fetched target (for the response section) and its call trace. -/
def tryLinkWorkItem (getItem : Nat → Except CallFailure (Option WorkItem))
    (updateItem : Nat → Except CallFailure (Option WorkItem))
    (targetId? : Option Nat) (createdId? : Option Nat) :
    Option WorkItem × List WitCall :=
  if jsNatTruthy targetId? then
    match targetId? with
    | none => (none, [])
    | some tid =>
      match getItem tid with
      | .error _ => (none, [.getItemCall tid (some 15000)])
      | .ok none => (none, [.getItemCall tid (some 15000)])
      | .ok (some target) =>
        if jsNatTruthy createdId? then
          match createdId? with
          | none => (some target, [.getItemCall tid (some 15000)])
          | some wid =>
            match updateItem wid with
            | .error _ =>
              (some target, [.getItemCall tid (some 15000), .updateItemCall wid (some 15000)])
            | .ok _ =>
              (some target, [.getItemCall tid (some 15000), .updateItemCall wid (some 15000)])
        else (some target, [.getItemCall tid (some 15000)])
  else (none, [])

/-- The formatted created work item (lines 477-486). -/
structure FormattedWorkItem where
  id : Option Nat
  title : Option String
  state : Option String
  type : Option String
  assignedTo : Option String
  url : String
deriving DecidableEq, Repr

/-- Lines 477-486. -/
def formatCreatedWorkItem (serverUrl project : String) (wi : WorkItem) :
    FormattedWorkItem :=
  let fields := wi.fields
  { id := wi.id
    title := fields.bind (fun f => f.title)
    state := fields.bind (fun f => f.state)
    type := fields.bind (fun f => f.workItemType)
    assignedTo := fields.bind (fun f => f.assignedToDisplayName)
    url := serverUrl ++ "/" ++ project ++ "/_workitems/edit/" ++ jsShowNatOpt wi.id }

/-- The successful response data of `create_work_item` (lines 488-524): the
formatted created item plus the parent and related sections when their
fetches resolved. -/
structure CreatedWorkItemReport where
  formatted : FormattedWorkItem
  parentWorkItem : Option WorkItem
  relatedWorkItem : Option WorkItem
deriving DecidableEq, Repr

/-- The `create_work_item` handler (lines 303-536). -/
def createWorkItemHandler (cfg : AzConfig) (args : CreateWorkItemArgs)
    (conn : Option String) (be : WitBackend) :
    ToolOutcome CreatedWorkItemReport × List WitCall :=
  match conn with
  | none => (.failure (createWorkItemErrorText "No connection to Azure DevOps"), [])
  | some serverUrl =>
    match jsOrElse args.project cfg.defaultProject with
    | none =>
      (.failure (createWorkItemErrorText "No project specified and no default project configured"), [])
    | some project =>
      let apiCalls := [WitCall.getApiCall (some 30000)]
      match be.getWorkItemTrackingApi with
      | .error f => (.failure (createWorkItemErrorText f.message), apiCalls)
      | .ok _ =>
        let createCalls := apiCalls ++ [WitCall.createCall (some 30000)]
        match be.createWorkItem with
        | .error f => (.failure (createWorkItemErrorText f.message), createCalls)
        | .ok none => (.info "Failed to create work item.", createCalls)
        | .ok (some workItem) =>
          let parent := tryLinkWorkItem be.getWorkItem be.updateWorkItem args.parentId workItem.id
          let related := tryLinkWorkItem be.getWorkItem be.updateWorkItem
            args.relatedWorkItemId workItem.id
          (.success
            { formatted := formatCreatedWorkItem serverUrl project workItem
              parentWorkItem := parent.1
              relatedWorkItem := related.1 },
            createCalls ++ parent.2 ++ related.2)

/-! ## Concrete scenarios used by the theorems below -/

/-- First repository in the backend listing. -/
def repoA : GitRepository := mkRepo "A" "Alpha"

/-- Second repository in the backend listing; configured as the default. -/
def repoB : GitRepository := mkRepo "B" "Beta"

/-- Pull request number 5 as it exists in repository `A`. -/
def prInA : GitPullRequest := mkPr 5 "A" "Alpha"

/-- Pull request number 5 as it exists in repository `B`. -/
def prInB : GitPullRequest := mkPr 5 "B" "Beta"

/-- A lookup oracle under which both repositories contain a pull request
with the requested number. -/
def lookupAB : PrLookup := fun rid =>
  if rid = "A" then .ok (some prInA)
  else if rid = "B" then .ok (some prInB)
  else .error "TF401180: The requested pull request was not found."

/-! ## C1 -/

/-- The fallback loop equals the spec-worded listing-order scan restricted
to the repositories other than the default one. -/
theorem searchOtherRepositories_eq_specScan (d : String) (pid : Nat) (lookup : PrLookup) :
    ∀ repos : List GitRepository,
      (searchOtherRepositories d pid lookup repos).1
        = specScanListingOrder pid lookup (repos.filter (fun r => !(r.id = d))) := by
  intro repos
  induction repos with
  | nil => rfl
  | cons r rest ih =>
    by_cases h : r.id = d
    · simp [searchOtherRepositories, List.filter_cons, h, ih]
    · simp only [searchOtherRepositories, List.filter_cons, h, if_false, decide_not]
      cases hl : lookup r.id with
      | error e => simp [specScanListingOrder, hl, ih, h]
      | ok pr? =>
        cases pr? with
        | none => simp [specScanListingOrder, hl, ih, h]
        | some pr =>
          by_cases hm : pr.pullRequestId = pid
          · simp [specScanListingOrder, hl, hm, h]
          · simp [specScanListingOrder, hl, hm, ih, h]

/-- C1, counterexample: with repositories listed as `[A, B]`, repository `B`
configured as the default, and pull request 5 present in both, the code
returns the pull request of `B` (the default, tried first), while the
claim's listing-order scan predicts the one of `A`, which appears earlier
in the listing. -/
theorem c1_counterexample :
    (resolvePullRequest "B" 5 lookupAB (.ok [repoA, repoB]) "Proj").1 = .ok (some prInB)
    ∧ specScanListingOrder 5 lookupAB [repoA, repoB] = some prInA
    ∧ prInA ≠ prInB := by
  decide

/-- C1, amended: with no repository identifier in the tool's schema, the
handler first attempts the direct lookup in the configured default
repository and returns its result outright on success; only when that
lookup rejects does it scan the listed repositories in backend listing
order, skipping the default repository, short-circuiting on the first
repository whose direct lookup returns a pull request with the matching
ID, swallowing per-repository lookup failures, and failing with the
"not found in project" error on exhaustion. -/
theorem c1_default_first_then_listing_scan (d : String) (pid : Nat) (lookup : PrLookup)
    (repos : List GitRepository) (project : String) :
    (∀ pr?, lookup d = .ok pr? →
      (resolvePullRequest d pid lookup (.ok repos) project).1 = .ok pr?)
    ∧ (∀ e, lookup d = .error e →
      (resolvePullRequest d pid lookup (.ok repos) project).1 =
        (match specScanListingOrder pid lookup (repos.filter (fun r => !(r.id = d))) with
        | some pr => .ok (some pr)
        | none =>
          .error ("Pull request #" ++ toString pid ++ " not found in project " ++ project))) := by
  constructor
  · intro pr? h
    simp [resolvePullRequest, h]
  · intro e h
    rw [← searchOtherRepositories_eq_specScan]
    cases hscan : (searchOtherRepositories d pid lookup repos).1 with
    | some pr => simp [resolvePullRequest, h, hscan]
    | none => simp [resolvePullRequest, h, hscan]

/-- C1 witness: the amended theorem evaluated on the concrete scenario. -/
theorem c1_default_first_then_listing_scan_witness :
    (resolvePullRequest "B" 5 lookupAB (.ok [repoA, repoB]) "Proj").1 = .ok (some prInB) :=
  (c1_default_first_then_listing_scan "B" 5 lookupAB [repoA, repoB] "Proj").1
    (some prInB) (by decide)

/-! ## C2 -/

/-- C2: a failed secondary fetch leaves the composite's corresponding field
at its defined empty value while the primary entity's field set is fully
populated, and the operation still answers successfully.  First conjunct:
the `get_pull_request` handler with a rejected comment-thread fetch answers
`.success` with the full formatted pull request and an empty thread list.
Second conjunct: the `get_pipeline` composite with a rejected run listing
is the formatted pipeline with an empty runs section. -/
theorem c2_secondary_failure_silent :
    (∀ (cfg : AzConfig) (args : GetPullRequestArgs) (be : GitBackend)
      (serverUrl project repositoryId : String) (pr : GitPullRequest) (rid e : String),
      jsOrElse args.project cfg.defaultProject = some project →
      jsRequire cfg.defaultRepository = some repositoryId →
      (resolvePullRequest repositoryId args.pullRequestId
        (fun r => be.getPullRequest r args.pullRequestId)
        (be.getRepositories project) project).1 = .ok (some pr) →
      pr.repositoryId = some rid →
      be.getThreads rid pr.pullRequestId = .error e →
      (getPullRequestHandler cfg args (some serverUrl) be).1 =
        .success (formatPullRequest serverUrl project pr, []))
    ∧ (∀ (p : Pipeline) (e : String),
      assembleGetPipeline p (.error e) = (formatPipeline p, [])) := by
  constructor
  · intro cfg args be serverUrl project repositoryId pr rid e hproj hrepo hres hrid hthreads
    simp [getPullRequestHandler, hproj, hrepo, hres, pullRequestThreads, hrid, hthreads]
  · intro p e
    rfl

/-- Configuration used by the witness scenarios. -/
def cfgW : AzConfig := { defaultProject := some "Proj", defaultRepository := some "R" }

/-- The pull request returned by the witness backend. -/
def prW : GitPullRequest := mkPr 7 "R" "Repo"

/-- A git backend whose default-repository lookup succeeds and whose
comment-thread fetch rejects. -/
def beW : GitBackend :=
  { getPullRequest := fun rid _ => if rid = "R" then .ok (some prW) else .error "not found"
    getRepositories := fun _ => .ok [repoA, repoB]
    getThreads := fun _ _ => .error "ECONNRESET"
    getRepository := fun _ _ => .error "not found"
    getRefs := fun _ => .ok []
    createPullRequest := fun _ _ _ => .error "not found" }

/-- A pipeline used by the witness scenarios. -/
def pipelineW : Pipeline :=
  { id := 3, name := "ci", revision := some 2, folder := none,
    url := some "u", configurationType := some "yaml" }

/-- C2 witness: both conjuncts of the theorem at concrete inputs. -/
theorem c2_secondary_failure_silent_witness :
    (getPullRequestHandler cfgW { pullRequestId := 7, project := none } (some "https://dev") beW).1 =
      .success (formatPullRequest "https://dev" "Proj" prW, [])
    ∧ assembleGetPipeline pipelineW (.error "ECONNRESET") = (formatPipeline pipelineW, []) :=
  ⟨c2_secondary_failure_silent.1 cfgW { pullRequestId := 7, project := none } beW
      "https://dev" "Proj" "R" prW "R" "ECONNRESET"
      (by decide) (by decide) (by decide) (by decide) (by decide),
    c2_secondary_failure_silent.2 pipelineW "ECONNRESET"⟩

/-! ## C3 -/

/-- The spec's required-parameter example: a parameter with a type and no
default. -/
def yamlRequiredExample : String := "parameters:\n  - name: env\n    type: string\n"

/-- C3: extraction on the spec's example does yield the entry with captured
default `""`, but the classification `!param.default && param.default !== ''`
is unsatisfiable for every entry (its two conjuncts contradict each other,
against the code's own comment "A parameter is considered required if it
has no default value"), so the entry is not classified required and
`run_pipeline` does not reject an invocation that supplies no parameters. -/
theorem c3_empty_default_not_required :
    extractYamlParameters yamlRequiredExample =
      [{ name := "env", type := "string", default := "", displayName := "env" }]
    ∧ isRequiredParam { name := "env", type := "string", default := "", displayName := "env" } = false
    ∧ runPipelineRejects (extractYamlParameters yamlRequiredExample) none = false
    ∧ (∀ p : ParamEntry, isRequiredParam p = false)
    ∧ (∀ yamlParameters params?, missingRequiredParams yamlParameters params? = []) := by
  refine ⟨by decide, by decide, by decide, ?_, ?_⟩
  · intro p
    by_cases h : p.default = "" <;> simp [isRequiredParam, jsFalsyString, h]
  · intro yamlParameters params?
    have hall : ∀ p : ParamEntry, isRequiredParam p = false := by
      intro p
      by_cases h : p.default = "" <;> simp [isRequiredParam, jsFalsyString, h]
    simp [missingRequiredParams, hall]

/-! ## C4 -/

/-- The spec's default-capture example: a parameter with a default and no
type. -/
def yamlDefaultExample : String := "parameters:\n  - name: env\n  default: prod\n"

/-- C4: on the spec's example the extraction yields one entry whose captured
default is `""`, not `"prod"`: every field pattern after the name in the
item regular expression sits behind a lazy `[\s\S]*?` and is optional, so
the first successful match never extends to reach `type:`, `default:` or
`displayName:`, and the section regular expression itself stops at the
first end of line. -/
theorem c4_default_capture_lost :
    extractYamlParameters yamlDefaultExample =
      [{ name := "env", type := "string", default := "", displayName := "env" }]
    ∧ extractYamlParameters yamlDefaultExample ≠
      [{ name := "env", type := "string", default := "prod", displayName := "env" }] := by
  decide

/-! ## C5 -/

/-- C5: with no default repository configured, the two tools that require a
repository and expose no repository parameter answer from their catch
handler without issuing a single backend call; when the connection and the
project resolution are in place, the answer is exactly the wrapped
configuration-error message of the respective tool. -/
theorem c5_missing_repository_no_backend_calls
    (cfg : AzConfig) (argsG : GetPullRequestArgs) (argsC : CreatePullRequestArgs)
    (conn : Option String) (be : GitBackend)
    (h : jsRequire cfg.defaultRepository = none) :
    ((getPullRequestHandler cfg argsG conn be).2 = []
      ∧ ((getPullRequestHandler cfg argsG conn be).1).isFailure = true)
    ∧ ((createPullRequestHandler cfg argsC conn be).2 = []
      ∧ ((createPullRequestHandler cfg argsC conn be).1).isFailure = true)
    ∧ (∀ serverUrl project, conn = some serverUrl →
        jsOrElse argsG.project cfg.defaultProject = some project →
        (getPullRequestHandler cfg argsG conn be).1 = .failure (getPullRequestErrorText
          "No default repository configured. Please set AZURE_DEVOPS_DEFAULT_REPOSITORY in your .env file"))
    ∧ (∀ serverUrl project, conn = some serverUrl →
        jsOrElse argsC.project cfg.defaultProject = some project →
        (createPullRequestHandler cfg argsC conn be).1 = .failure (createPullRequestErrorText
          "No repository configured. Please set AZURE_DEVOPS_DEFAULT_REPOSITORY in your .env file")) := by
  refine ⟨?_, ?_, ?_, ?_⟩
  · cases conn with
    | none => simp [getPullRequestHandler, ToolOutcome.isFailure]
    | some serverUrl =>
      cases hp : jsOrElse argsG.project cfg.defaultProject with
      | none => simp [getPullRequestHandler, hp, ToolOutcome.isFailure]
      | some project => simp [getPullRequestHandler, hp, h, ToolOutcome.isFailure]
  · cases conn with
    | none => simp [createPullRequestHandler, ToolOutcome.isFailure]
    | some serverUrl =>
      cases hp : jsOrElse argsC.project cfg.defaultProject with
      | none => simp [createPullRequestHandler, hp, ToolOutcome.isFailure]
      | some project => simp [createPullRequestHandler, hp, h, ToolOutcome.isFailure]
  · intro serverUrl project hconn hp
    subst hconn
    simp [getPullRequestHandler, hp, h]
  · intro serverUrl project hconn hp
    subst hconn
    simp [createPullRequestHandler, hp, h]

/-- Configuration with a default project but no default repository. -/
def cfgNoRepo : AzConfig := { defaultProject := some "Proj", defaultRepository := none }

/-- Arguments used by the create-pull-request witness scenarios. -/
def argsCreatePrW : CreatePullRequestArgs :=
  { sourceRefName := "feature/x", targetRefName := "main", title := "T",
    description := none, project := none, isDraft := none,
    reviewers := none, workItemIds := none }

/-- C5 witness: the theorem evaluated at a concrete configuration. -/
theorem c5_missing_repository_no_backend_calls_witness :
    ((getPullRequestHandler cfgNoRepo { pullRequestId := 7, project := none } (some "u") beW).2 = []
      ∧ ((getPullRequestHandler cfgNoRepo { pullRequestId := 7, project := none } (some "u") beW).1).isFailure = true)
    ∧ (getPullRequestHandler cfgNoRepo { pullRequestId := 7, project := none } (some "u") beW).1 =
        .failure (getPullRequestErrorText
          "No default repository configured. Please set AZURE_DEVOPS_DEFAULT_REPOSITORY in your .env file")
    ∧ (createPullRequestHandler cfgNoRepo argsCreatePrW (some "u") beW).1 =
        .failure (createPullRequestErrorText
          "No repository configured. Please set AZURE_DEVOPS_DEFAULT_REPOSITORY in your .env file") :=
  ⟨(c5_missing_repository_no_backend_calls cfgNoRepo { pullRequestId := 7, project := none }
      argsCreatePrW (some "u") beW (by decide)).1,
    (c5_missing_repository_no_backend_calls cfgNoRepo { pullRequestId := 7, project := none }
      argsCreatePrW (some "u") beW (by decide)).2.2.1 "u" "Proj" rfl (by decide),
    (c5_missing_repository_no_backend_calls cfgNoRepo { pullRequestId := 7, project := none }
      argsCreatePrW (some "u") beW (by decide)).2.2.2 "u" "Proj" rfl (by decide)⟩

/-! ## C6 -/

/-- If `p` is a prefix of the literal `a`, it is a prefix of `a ++ m`. -/
theorem prefixDataAppend (p a m : String) (t : List Char) (h : p.data ++ t = a.data) :
    p.data <+: (a ++ m).data :=
  ⟨t ++ m.data, by
    have hd : (a ++ m).data = a.data ++ m.data := rfl
    rw [hd, ← h, List.append_assoc]⟩

/-- C6, counterexample: the text payload answered by `get_pull_request`'s
catch handler for a missing connection does not begin with the literal
`Error:` (the code's catch texts read `Error getting pull request: ...`,
with no colon after `Error`). -/
theorem c6_counterexample :
    ¬ ("Error:".data <+: (getPullRequestErrorText "No connection to Azure DevOps").data) := by
  decide

/-- C6, amended: every error text payload returned at the invocation
boundary by a catch handler begins with the literal prefix `Error`
(followed by the tool-specific wording, not always by a colon); the two
wiki tools return no payload on error but rethrow an error whose message
begins with `Failed to`. -/
theorem c6_error_texts_start_with_error (m : String) :
    ("Error".data <+: (getPullRequestErrorText m).data)
    ∧ ("Error".data <+: (getPipelineErrorText m).data)
    ∧ ("Error".data <+: (runPipelineErrorText m).data)
    ∧ ("Error".data <+: (createPullRequestErrorText m).data)
    ∧ ("Error".data <+: (getWorkItemErrorText m).data)
    ∧ ("Error".data <+: (createWorkItemErrorText m).data)
    ∧ ("Error".data <+: (getRepositoryErrorText m).data)
    ∧ ("Error".data <+: (getPullRequestDiffErrorText m).data)
    ∧ ("Error".data <+: (getPullRequestsErrorText m).data)
    ∧ ("Error".data <+: (searchCodeErrorText m).data)
    ∧ ("Failed to".data <+: (editWikiPageThrownMessage m).data)
    ∧ ("Failed to".data <+: (createWikiThrownMessage m).data) :=
  ⟨prefixDataAppend "Error" "Error getting pull request: " m " getting pull request: ".data (by decide),
    prefixDataAppend "Error" "Error getting pipeline: " m " getting pipeline: ".data (by decide),
    prefixDataAppend "Error" "Error running pipeline: " m " running pipeline: ".data (by decide),
    prefixDataAppend "Error" "Error creating pull request: " m " creating pull request: ".data (by decide),
    prefixDataAppend "Error" "Error getting work item: " m " getting work item: ".data (by decide),
    prefixDataAppend "Error" "Error creating work item: " m " creating work item: ".data (by decide),
    prefixDataAppend "Error" "Error retrieving repository: " m " retrieving repository: ".data (by decide),
    prefixDataAppend "Error" "Error getting pull request diff: " m " getting pull request diff: ".data (by decide),
    prefixDataAppend "Error" "Error getting pull requests: " m " getting pull requests: ".data (by decide),
    prefixDataAppend "Error" "Error searching code: " m " searching code: ".data (by decide),
    prefixDataAppend "Failed to" "Failed to edit wiki page: " m " edit wiki page: ".data (by decide),
    prefixDataAppend "Failed to" "Failed to create wiki: " m " create wiki: ".data (by decide)⟩

/-! ## C7 -/

/-- C7: `get_repository` resolution attempts the direct primary-key lookup
first; on its failure it lists the candidates and takes the first
case-insensitive display-name match; when no candidate matches either, the
outcome is the not-found message, and the tool answers it as a text
response from its catch handler rather than crashing. -/
theorem c7_repository_resolution (repositoryId project : String)
    (direct : Except String GitRepository) (repos : List GitRepository)
    (cfg : AzConfig) (args : GetRepositoryArgs) (conn : Option String) (be : GitBackend) :
    (∀ r, direct = .ok r →
      resolveRepository repositoryId project direct (.ok repos) = .ok r)
    ∧ (∀ e, direct = .error e →
      resolveRepository repositoryId project direct (.ok repos) =
        (match repos.find? (repoNameMatches repositoryId) with
        | some r => .ok r
        | none => .error (repositoryNotFoundMsg repositoryId project)))
    ∧ (∀ e, direct = .error e → (∀ r ∈ repos, repoNameMatches repositoryId r = false) →
      resolveRepository repositoryId project direct (.ok repos) =
        .error (repositoryNotFoundMsg repositoryId project))
    ∧ (∀ serverUrl project2 rid2 e2 rlist,
      conn = some serverUrl →
      jsOrElse args.project cfg.defaultProject = some project2 →
      jsOrElse args.repositoryId cfg.defaultRepository = some rid2 →
      be.getRepository rid2 project2 = .error e2 →
      be.getRepositories project2 = .ok rlist →
      (∀ r ∈ rlist, repoNameMatches rid2 r = false) →
      (getRepositoryHandler cfg args conn be).1 =
        .failure (getRepositoryErrorText (repositoryNotFoundMsg rid2 project2))) := by
  refine ⟨?_, ?_, ?_, ?_⟩
  · intro r h
    simp [resolveRepository, h]
  · intro e h
    simp [resolveRepository, h]
  · intro e h hall
    have hf : repos.find? (repoNameMatches repositoryId) = none := by
      rw [List.find?_eq_none]
      intro r hr
      simp [hall r hr]
    simp [resolveRepository, h, hf]
  · intro serverUrl project2 rid2 e2 rlist hconn hproj hrid hdirect hlist hall
    subst hconn
    have hf : rlist.find? (repoNameMatches rid2) = none := by
      rw [List.find?_eq_none]
      intro r hr
      simp [hall r hr]
    simp [getRepositoryHandler, hproj, hrid, hdirect, resolveRepository, hlist, hf]

/-- Configuration naming a repository that exists nowhere. -/
def cfgMissingRepo : AzConfig :=
  { defaultProject := some "Proj", defaultRepository := some "myrepo" }

/-- A backend whose direct repository lookup rejects and whose listing
contains no display name matching `myrepo`. -/
def beMissingRepo : GitBackend :=
  { getPullRequest := fun _ _ => .error "not found"
    getRepositories := fun _ => .ok [mkRepo "X" "Other"]
    getThreads := fun _ _ => .ok []
    getRepository := fun _ _ => .error "TF401019: could not be found"
    getRefs := fun _ => .ok []
    createPullRequest := fun _ _ _ => .error "not found" }

/-- C7 witness: the direct-lookup and exhausted-fallback conjuncts at
concrete inputs. -/
theorem c7_repository_resolution_witness :
    resolveRepository "myrepo" "Proj" (.ok repoA) (.ok [mkRepo "X" "Other"]) = .ok repoA
    ∧ (getRepositoryHandler cfgMissingRepo { repositoryId := none, project := none }
        (some "u") beMissingRepo).1 =
      .failure (getRepositoryErrorText (repositoryNotFoundMsg "myrepo" "Proj")) :=
  ⟨(c7_repository_resolution "myrepo" "Proj" (.ok repoA) [mkRepo "X" "Other"]
      cfgMissingRepo { repositoryId := none, project := none } (some "u") beMissingRepo).1
      repoA rfl,
    (c7_repository_resolution "myrepo" "Proj" (.error "TF401019: could not be found")
      [mkRepo "X" "Other"] cfgMissingRepo { repositoryId := none, project := none }
      (some "u") beMissingRepo).2.2.2
      "u" "Proj" "myrepo" "TF401019: could not be found" [mkRepo "X" "Other"]
      rfl (by decide) (by decide) (by decide) (by decide) (by decide)⟩

/-! ## C8 -/

/-- First entry of the spec's grouping example, of type `Add`. -/
def changeAdd1 : ChangeEntry := { path := some "f1", changeType := some changeTypeAdd }

/-- Second entry, of type `Edit`. -/
def changeEdit2 : ChangeEntry := { path := some "f2", changeType := some changeTypeEdit }

/-- Third entry, of type `Delete`. -/
def changeDelete3 : ChangeEntry := { path := some "f3", changeType := some changeTypeDelete }

/-- Fourth entry, of type `Add` again. -/
def changeAdd4 : ChangeEntry := { path := some "f4", changeType := some changeTypeAdd }

/-- The spec's 4-entry grouping example with types `[Add, Edit, Delete, Add]`. -/
def changeExample : List ChangeEntry := [changeAdd1, changeEdit2, changeDelete3, changeAdd4]

/-- C8: the diff formatter partitions change entries into the four groups by
`changeType` as stable filters of the input (each group is a sublist of the
input, so original relative order is preserved), the summary reports the
four group sizes, and on the spec's `[Add, Edit, Delete, Add]` example the
sizes are `(2, 1, 1, 0)` with the two `Add` entries in original order. -/
theorem c8_change_grouping (entries : List ChangeEntry) :
    List.Sublist (additionsOf entries) entries
    ∧ List.Sublist (editsOf entries) entries
    ∧ List.Sublist (deletesOf entries) entries
    ∧ List.Sublist (renamesOf entries) entries
    ∧ diffSummaryCounts entries =
        ((additionsOf entries).length, (editsOf entries).length,
          (deletesOf entries).length, (renamesOf entries).length)
    ∧ diffSummaryCounts changeExample = (2, 1, 1, 0)
    ∧ additionsOf changeExample = [changeAdd1, changeAdd4] :=
  ⟨List.filter_sublist entries, List.filter_sublist entries, List.filter_sublist entries,
    List.filter_sublist entries, rfl, by decide, by decide⟩

/-! ## C9 -/

/-- Every call issued by a linking block carries the 15000 ms bound. -/
theorem tryLinkWorkItem_bound (getItem updateItem : Nat → Except CallFailure (Option WorkItem))
    (targetId? createdId? : Option Nat) :
    ∀ c ∈ (tryLinkWorkItem getItem updateItem targetId? createdId?).2,
      WitCall.bound c = some 15000 := by
  intro c hc
  by_cases ht : jsNatTruthy targetId?
  · cases targetId? with
    | none => simp [tryLinkWorkItem, ht] at hc
    | some tid =>
      cases hg : getItem tid with
      | error f =>
        simp [tryLinkWorkItem, ht, hg] at hc
        subst hc
        rfl
      | ok target? =>
        cases target? with
        | none =>
          simp [tryLinkWorkItem, ht, hg] at hc
          subst hc
          rfl
        | some target =>
          by_cases hw : jsNatTruthy createdId?
          · cases createdId? with
            | none => simp [tryLinkWorkItem, ht, hg, hw] at hc; subst hc; rfl
            | some wid =>
              cases hu : updateItem wid with
              | error f =>
                simp [tryLinkWorkItem, ht, hg, hw, hu] at hc
                rcases hc with hc | hc <;> subst hc <;> rfl
              | ok x =>
                simp [tryLinkWorkItem, ht, hg, hw, hu] at hc
                rcases hc with hc | hc <;> subst hc <;> rfl
          · simp [tryLinkWorkItem, ht, hg, hw] at hc
            subst hc
            rfl
  · simp [tryLinkWorkItem, ht] at hc

/-- C9: every backend call issued by `create_work_item` carries a per-call
timeout bound (30000 ms for the API acquisition and the creation call,
15000 ms for the linking calls), and once the creation call has succeeded,
the outcome is the success report of the created work item whatever the
parent/related linking steps do — their failures and timeouts are
silent. -/
theorem c9_timeouts_and_silent_linking (cfg : AzConfig) (args : CreateWorkItemArgs)
    (conn : Option String) (be : WitBackend) :
    (∀ c ∈ (createWorkItemHandler cfg args conn be).2,
      WitCall.bound c = some 30000 ∨ WitCall.bound c = some 15000)
    ∧ (∀ serverUrl project wi,
      conn = some serverUrl →
      jsOrElse args.project cfg.defaultProject = some project →
      be.getWorkItemTrackingApi = .ok () →
      be.createWorkItem = .ok (some wi) →
      ∃ parent related,
        (createWorkItemHandler cfg args conn be).1 =
          .success { formatted := formatCreatedWorkItem serverUrl project wi,
                     parentWorkItem := parent, relatedWorkItem := related }) := by
  constructor
  · intro c hc
    cases conn with
    | none => simp [createWorkItemHandler] at hc
    | some serverUrl =>
      cases hp : jsOrElse args.project cfg.defaultProject with
      | none => simp [createWorkItemHandler, hp] at hc
      | some project =>
        cases ha : be.getWorkItemTrackingApi with
        | error f =>
          simp [createWorkItemHandler, hp, ha] at hc
          subst hc
          exact Or.inl rfl
        | ok u =>
          cases hcw : be.createWorkItem with
          | error f =>
            simp [createWorkItemHandler, hp, ha, hcw] at hc
            rcases hc with hc | hc <;> subst hc
            · exact Or.inl rfl
            · exact Or.inl rfl
          | ok wi? =>
            cases wi? with
            | none =>
              simp [createWorkItemHandler, hp, ha, hcw] at hc
              rcases hc with hc | hc <;> subst hc
              · exact Or.inl rfl
              · exact Or.inl rfl
            | some wi =>
              simp only [createWorkItemHandler, hp, ha, hcw, List.append_assoc,
                List.mem_append, List.mem_cons, List.mem_singleton,
                List.not_mem_nil, or_false] at hc
              rcases hc with hc | hc | hc | hc
              · subst hc; exact Or.inl rfl
              · subst hc; exact Or.inl rfl
              · exact Or.inr (tryLinkWorkItem_bound be.getWorkItem be.updateWorkItem
                  args.parentId wi.id c hc)
              · exact Or.inr (tryLinkWorkItem_bound be.getWorkItem be.updateWorkItem
                  args.relatedWorkItemId wi.id c hc)
  · intro serverUrl project wi hconn hp ha hcw
    subst hconn
    refine ⟨(tryLinkWorkItem be.getWorkItem be.updateWorkItem args.parentId wi.id).1,
      (tryLinkWorkItem be.getWorkItem be.updateWorkItem args.relatedWorkItemId wi.id).1, ?_⟩
    simp [createWorkItemHandler, hp, ha, hcw]

/-- The created work item of the C9 witness scenario. -/
def wiCreated : WorkItem :=
  { id := some 101, url := some "wurl",
    fields := some { title := some "T", state := some "New",
                     workItemType := some "Task", assignedToDisplayName := none } }

/-- The parent work item of the C9 witness scenario. -/
def wiParent : WorkItem :=
  { id := some 42, url := some "purl",
    fields := some { title := some "P", state := some "Active",
                     workItemType := some "Feature", assignedToDisplayName := none } }

/-- A work-item backend whose creation succeeds and whose linking update
times out. -/
def beWit : WitBackend :=
  { getWorkItemTrackingApi := .ok ()
    createWorkItem := .ok (some wiCreated)
    getWorkItem := fun _ => .ok (some wiParent)
    updateWorkItem := fun _ => .error (.timedOut "Timeout linking work items") }

/-- Arguments of the C9 witness scenario: a parent link is requested. -/
def argsWit : CreateWorkItemArgs :=
  { project := none, title := "T", workItemType := "Task", description := none,
    assignedTo := none, parentId := some 42, linkType := none,
    relatedWorkItemId := none, relatedWorkItemLinkType := none }

/-- C9 witness: both conjuncts of the theorem at the concrete scenario in
which the parent-link update times out after creation succeeded. -/
theorem c9_timeouts_and_silent_linking_witness :
    (WitCall.bound (WitCall.createCall (some 30000)) = some 30000
      ∨ WitCall.bound (WitCall.createCall (some 30000)) = some 15000)
    ∧ ∃ parent related,
        (createWorkItemHandler cfgW argsWit (some "u") beWit).1 =
          .success { formatted := formatCreatedWorkItem "u" "Proj" wiCreated,
                     parentWorkItem := parent, relatedWorkItem := related } :=
  ⟨(c9_timeouts_and_silent_linking cfgW argsWit (some "u") beWit).1
      (WitCall.createCall (some 30000)) (by decide),
    (c9_timeouts_and_silent_linking cfgW argsWit (some "u") beWit).2
      "u" "Proj" wiCreated rfl (by decide) rfl rfl⟩

/-! ## C10 -/

/-- C10: `create_pull_request` accepts no repository argument, so every
creation call it issues targets the configured default repository
(conjuncts two and three), and with no default repository configured it
fails from its catch handler without issuing any backend call (conjunct
one). -/
theorem c10_create_pr_default_repository_only (cfg : AzConfig)
    (args : CreatePullRequestArgs) (conn : Option String) (be : GitBackend) :
    (jsRequire cfg.defaultRepository = none →
      (createPullRequestHandler cfg args conn be).2 = []
      ∧ ((createPullRequestHandler cfg args conn be).1).isFailure = true)
    ∧ (∀ rid project, GitCall.createPullRequestIn rid project ∈
        (createPullRequestHandler cfg args conn be).2 →
      jsRequire cfg.defaultRepository = some rid)
    ∧ (∀ report, (createPullRequestHandler cfg args conn be).1 = .success report →
      jsRequire cfg.defaultRepository = some report.repositoryId) := by
  refine ⟨?_, ?_, ?_⟩
  · intro h
    cases conn with
    | none => simp [createPullRequestHandler, ToolOutcome.isFailure]
    | some serverUrl =>
      cases hp : jsOrElse args.project cfg.defaultProject with
      | none => simp [createPullRequestHandler, hp, ToolOutcome.isFailure]
      | some project => simp [createPullRequestHandler, hp, h, ToolOutcome.isFailure]
  · intro rid project2 hmem
    cases conn with
    | none => simp [createPullRequestHandler] at hmem
    | some serverUrl =>
      cases hp : jsOrElse args.project cfg.defaultProject with
      | none => simp [createPullRequestHandler, hp] at hmem
      | some project =>
        cases hr : jsRequire cfg.defaultRepository with
        | none => simp [createPullRequestHandler, hp, hr] at hmem
        | some repositoryId =>
          cases hrep : be.getRepository repositoryId project with
          | error e => simp [createPullRequestHandler, hp, hr, hrep] at hmem
          | ok repository =>
            by_cases hid : repository.id = ""
            · simp [createPullRequestHandler, hp, hr, hrep, hid] at hmem
            · cases hcr : be.createPullRequest
                  { sourceRefName := ensureRefsHeads args.sourceRefName
                    targetRefName := ensureRefsHeads args.targetRefName
                    title := args.title
                    description := args.description.getD ""
                    isDraft := args.isDraft.getD false } repositoryId project with
              | error e =>
                simp [createPullRequestHandler, hp, hr, hrep, hid, hcr] at hmem
                simp [hmem.1]
              | ok created? =>
                cases created? with
                | none =>
                  simp [createPullRequestHandler, hp, hr, hrep, hid, hcr] at hmem
                  simp [hmem.1]
                | some createdPR =>
                  by_cases htr : jsNatTruthy createdPR.pullRequestId
                  · simp [createPullRequestHandler, hp, hr, hrep, hid, hcr, htr] at hmem
                    simp [hmem.1]
                  · simp [createPullRequestHandler, hp, hr, hrep, hid, hcr, htr] at hmem
                    simp [hmem.1]
  · intro report hsucc
    cases conn with
    | none => simp [createPullRequestHandler] at hsucc
    | some serverUrl =>
      cases hp : jsOrElse args.project cfg.defaultProject with
      | none => simp [createPullRequestHandler, hp] at hsucc
      | some project =>
        cases hr : jsRequire cfg.defaultRepository with
        | none => simp [createPullRequestHandler, hp, hr] at hsucc
        | some repositoryId =>
          cases hrep : be.getRepository repositoryId project with
          | error e => simp [createPullRequestHandler, hp, hr, hrep] at hsucc
          | ok repository =>
            by_cases hid : repository.id = ""
            · simp [createPullRequestHandler, hp, hr, hrep, hid] at hsucc
            · cases hcr : be.createPullRequest
                  { sourceRefName := ensureRefsHeads args.sourceRefName
                    targetRefName := ensureRefsHeads args.targetRefName
                    title := args.title
                    description := args.description.getD ""
                    isDraft := args.isDraft.getD false } repositoryId project with
              | error e => simp [createPullRequestHandler, hp, hr, hrep, hid, hcr] at hsucc
              | ok created? =>
                cases created? with
                | none => simp [createPullRequestHandler, hp, hr, hrep, hid, hcr] at hsucc
                | some createdPR =>
                  by_cases htr : jsNatTruthy createdPR.pullRequestId
                  · simp [createPullRequestHandler, hp, hr, hrep, hid, hcr, htr] at hsucc
                    subst hsucc
                    rfl
                  · simp [createPullRequestHandler, hp, hr, hrep, hid, hcr, htr] at hsucc

/-- A git backend that verifies the configured repository and creates pull
request 42 in it. -/
def beCreate : GitBackend :=
  { getPullRequest := fun _ _ => .error "not found"
    getRepositories := fun _ => .ok []
    getThreads := fun _ _ => .ok []
    getRepository := fun rid _ => .ok (mkRepo rid "Repo")
    getRefs := fun _ => .ok []
    createPullRequest := fun _ _ _ =>
      .ok (some { pullRequestId := some 42, title := some "T", isDraft := some false }) }

/-- C10 witness: the no-default conjunct and the default-target conjunct at
concrete inputs. -/
theorem c10_create_pr_default_repository_only_witness :
    ((createPullRequestHandler cfgNoRepo argsCreatePrW (some "u") beCreate).2 = []
      ∧ ((createPullRequestHandler cfgNoRepo argsCreatePrW (some "u") beCreate).1).isFailure = true)
    ∧ jsRequire cfgW.defaultRepository = some "R" :=
  ⟨(c10_create_pr_default_repository_only cfgNoRepo argsCreatePrW (some "u") beCreate).1
      (by decide),
    (c10_create_pr_default_repository_only cfgW argsCreatePrW (some "u") beCreate).2.1
      "R" "Proj" (by decide)⟩

end AzMcp
